import Mathlib

/-!
Shallow embedding of the phone-checker service (app_main.py): phone
normalization, the lazily-created client singleton, the lookup-result
translator, the shutdown hook and the two HTTP handlers, together with
theorems settling the specification claims.  Python exceptions are modelled
with Except, the mutable module state with explicit state passing, and the
external collaborators (login, get_user_info_by_phone) as parameters.
-/

namespace App

/-- Whitespace characters matched by the regex class backslash-s on ASCII. -/
def isWs (c : Char) : Bool :=
  c == ' ' || c == '\t' || c == '\n' || c == '\r' || c == '\x0b' || c == '\x0c'

/-- Remove every whitespace character, as the re.sub call in the source does. -/
def stripWsL (l : List Char) : List Char := l.filter (fun c => !isWs c)

/-- Prepend a plus sign unless the list already starts with one. -/
def ensurePlusL (l : List Char) : List Char :=
  if l.head? = some '+' then l else '+' :: l

/-- Full match of the regex: a plus sign then 5 to 20 decimal digits. -/
def phoneFormatL (l : List Char) : Bool :=
  match l with
  | [] => false
  | c :: ds =>
    c == '+' && ds.all Char.isDigit && decide (5 ≤ ds.length) && decide (ds.length ≤ 20)

/-- Embedding of app_main._normalize_phone; the error carries the ValueError
message raised by the source. -/
def normalizePhone (phone : String) : Except String String :=
  if phone.data = [] then
    Except.error "Пустой номер телефона"
  else
    let normalized := ensurePlusL (stripWsL phone.data)
    if phoneFormatL normalized then
      Except.ok (String.mk normalized)
    else
      Except.error "Неверный формат номера телефона"

/-- The shape from the spec, as a proposition: a plus sign followed by 5 to 20
decimal digits. -/
def PhonePattern (l : List Char) : Prop :=
  ∃ ds, l = '+' :: ds ∧ (∀ c ∈ ds, c.isDigit = true) ∧ 5 ≤ ds.length ∧ ds.length ≤ 20

/-- The structured record optionally returned by the external lookup. -/
structure UserInfo where
  error : Option String
  username : Option String
  id : Option Int
deriving DecidableEq

/-- Truthiness of an optional string field in Python: present and non-empty. -/
def truthyStr : Option String → Bool
  | none => false
  | some s => s != ""

/-- Truthiness of the optional numeric id field in Python: present and nonzero. -/
def truthyInt : Option Int → Bool
  | none => false
  | some n => n != 0

/-- Whether pat begins the list l, character by character. -/
def leadsWith : List Char → List Char → Bool
  | [], _ => true
  | _ :: _, [] => false
  | p :: ps, c :: cs => p == c && leadsWith ps cs

/-- Whether pat occurs contiguously inside l, the Python in operator. -/
def hasSub (pat : List Char) : List Char → Bool
  | [] => pat.isEmpty
  | c :: t => leadsWith pat (c :: t) || hasSub pat t

/-- String version of hasSub. -/
def containsSub (s pat : String) : Bool := hasSub pat.data s.data

/-- The translation step at the end of _build_result_string: map the optional
lookup record to the single response string. -/
def resultString (info : Option UserInfo) : String :=
  match info with
  | none => "Неизвестная ошибка"
  | some i =>
    if truthyStr i.error then
      let errorText := i.error.getD ""
      if containsSub errorText "not on Telegram" then
        "Нет такого пользователя в Telegram или заблокировано добавление в контакты"
      else if containsSub errorText "multiple Telegram accounts" then
        "Номер привязан к нескольким аккаунтам (неожиданная ситуация)"
      else
        errorText
    else if truthyStr i.username then
      "@" ++ i.username.getD ""
    else if truthyInt i.id then
      "У пользователя нет username"
    else
      "Не удалось определить информацию по номеру"

/-- Python exception classes distinguished by the handler. -/
inductive PyError where
  | valueError : String → PyError
  | exception : String → PyError
deriving DecidableEq

/-- The mutable module state: the optional client handle (clients are
identified by natural numbers) plus instrumentation recording login calls and
the handles that were disconnected. -/
structure ServerState where
  client : Option Nat
  nextClientId : Nat
  loginCalls : Nat
  disconnected : List Nat
deriving DecidableEq

/-- Embedding of _get_or_create_client: reuse the stored handle, otherwise run
login (whose outcome is the loginRes parameter) and store the fresh handle. -/
def getOrCreateClient (loginRes : Except PyError Unit) (st : ServerState) :
    Except PyError Nat × ServerState :=
  match st.client with
  | some c => (Except.ok c, st)
  | none =>
    match loginRes with
    | Except.error e => (Except.error e, { st with loginCalls := st.loginCalls + 1 })
    | Except.ok _ =>
      (Except.ok st.nextClientId,
       { st with
          client := some st.nextClientId,
          nextClientId := st.nextClientId + 1,
          loginCalls := st.loginCalls + 1 })

/-- Behaviour of the external get_user_info_by_phone call: for a client handle
and a normalized phone it returns the optional record or raises. -/
def Lookup : Type := Nat → String → Except PyError (Option UserInfo)

/-- Embedding of _build_result_string: normalize, obtain the client, look the
number up and translate the outcome; a ValueError from normalization aborts
before the client is touched. -/
def buildResultString (loginRes : Except PyError Unit) (lookup : Lookup)
    (phone : String) (st : ServerState) : Except PyError String × ServerState :=
  match normalizePhone phone with
  | Except.error msg => (Except.error (PyError.valueError msg), st)
  | Except.ok normalized =>
    match getOrCreateClient loginRes st with
    | (Except.error e, st1) => (Except.error e, st1)
    | (Except.ok c, st1) =>
      match lookup c normalized with
      | Except.error e => (Except.error e, st1)
      | Except.ok info => (Except.ok (resultString info), st1)

/-- HTTP response: a 200 JSON body with a result field, or an HTTPException
with a status code and a detail string. -/
inductive Response where
  | ok : String → Response
  | httpError : Nat → String → Response
deriving DecidableEq

/-- Status code of a response. -/
def Response.status : Response → Nat
  | Response.ok _ => 200
  | Response.httpError s _ => s

/-- Embedding of the GET check_phone handler: a ValueError becomes a 200 body
with the message, any other exception becomes an opaque 500. -/
def checkPhone (loginRes : Except PyError Unit) (lookup : Lookup)
    (phone : String) (st : ServerState) : Response × ServerState :=
  match buildResultString loginRes lookup phone st with
  | (Except.ok r, st1) => (Response.ok r, st1)
  | (Except.error (PyError.valueError m), st1) => (Response.ok m, st1)
  | (Except.error (PyError.exception _), st1) =>
    (Response.httpError 500 "Внутренняя ошибка сервиса", st1)

/-- Request body of the POST route. -/
structure PhoneRequest where
  phone : String

/-- Embedding of the POST check_phone handler: delegate to the GET handler. -/
def checkPhonePost (loginRes : Except PyError Unit) (lookup : Lookup)
    (body : PhoneRequest) (st : ServerState) : Response × ServerState :=
  checkPhone loginRes lookup body.phone st

/-- Embedding of shutdown_event: when a handle is present, disconnect it and
clear the global; otherwise do nothing. -/
def shutdownEvent (st : ServerState) : ServerState :=
  match st.client with
  | none => st
  | some c => { st with client := none, disconnected := st.disconnected ++ [c] }

lemma phoneFormat_iff (l : List Char) : phoneFormatL l = true ↔ PhonePattern l := by
  constructor
  · intro h
    cases l with
    | nil => simp [phoneFormatL] at h
    | cons c ds =>
      simp only [phoneFormatL, Bool.and_eq_true, beq_iff_eq, decide_eq_true_eq,
        List.all_eq_true] at h
      obtain ⟨⟨⟨hc, hall⟩, h5⟩, h20⟩ := h
      subst hc
      refine ⟨ds, rfl, hall, h5, h20⟩
  · rintro ⟨ds, rfl, hall, h5, h20⟩
    show phoneFormatL ('+' :: ds) = true
    simp only [phoneFormatL]
    rw [Bool.and_eq_true, Bool.and_eq_true, Bool.and_eq_true]
    exact ⟨⟨⟨rfl, List.all_eq_true.mpr hall⟩, decide_eq_true h5⟩, decide_eq_true h20⟩

lemma digit_not_ws (c : Char) (h : c.isDigit = true) : isWs c = false := by
  by_cases hw : isWs c = true
  · simp only [isWs, Bool.or_eq_true, beq_iff_eq] at hw
    rcases hw with ((((h1 | h1) | h1) | h1) | h1) | h1 <;> subst h1 <;>
      exact absurd h (by decide)
  · simpa using hw

lemma normalize_ok_iff (s : String) (v : String) :
    normalizePhone s = Except.ok v ↔
      (phoneFormatL (ensurePlusL (stripWsL s.data)) = true ∧
        v = String.mk (ensurePlusL (stripWsL s.data))) := by
  unfold normalizePhone
  split
  · rename_i he
    constructor
    · intro h; exact Except.noConfusion h
    · rintro ⟨hf, _⟩; rw [he] at hf; exact absurd hf (by decide)
  · dsimp only
    split
    · rename_i hf
      constructor
      · intro h; injection h with h1; exact ⟨hf, h1.symm⟩
      · rintro ⟨_, rfl⟩; rfl
    · rename_i hf
      constructor
      · intro h; exact Except.noConfusion h
      · rintro ⟨h, _⟩; exact absurd h hf

lemma normalize_error_cases (s : String) (msg : String)
    (h : normalizePhone s = Except.error msg) :
    msg = "Пустой номер телефона" ∨ msg = "Неверный формат номера телефона" := by
  unfold normalizePhone at h
  split at h
  · injection h with h1; exact Or.inl h1.symm
  · dsimp only at h
    split at h
    · exact Except.noConfusion h
    · injection h with h1; exact Or.inr h1.symm

lemma buildResult_norm_error (lr : Except PyError Unit) (lk : Lookup) (phone : String)
    (st : ServerState) (msg : String) (h : normalizePhone phone = Except.error msg) :
    buildResultString lr lk phone st = (Except.error (PyError.valueError msg), st) := by
  unfold buildResultString
  rw [h]

lemma checkPhone_value_error (lr : Except PyError Unit) (lk : Lookup) (phone : String)
    (st st1 : ServerState) (m : String)
    (h : buildResultString lr lk phone st = (Except.error (PyError.valueError m), st1)) :
    checkPhone lr lk phone st = (Response.ok m, st1) := by
  unfold checkPhone
  rw [h]

lemma checkPhone_exception (lr : Except PyError Unit) (lk : Lookup) (phone : String)
    (st st1 : ServerState) (m : String)
    (h : buildResultString lr lk phone st = (Except.error (PyError.exception m), st1)) :
    checkPhone lr lk phone st = (Response.httpError 500 "Внутренняя ошибка сервиса", st1) := by
  unfold checkPhone
  rw [h]

lemma checkPhone_norm_error (lr : Except PyError Unit) (lk : Lookup) (phone : String)
    (st : ServerState) (msg : String) (h : normalizePhone phone = Except.error msg) :
    checkPhone lr lk phone st = (Response.ok msg, st) :=
  checkPhone_value_error lr lk phone st st msg (buildResult_norm_error lr lk phone st msg h)

end App

namespace App

/-- C2: normalization strips whitespace, ensures a leading plus, succeeds with
exactly that canonical string when it matches the plus-then-5-to-20-digits
pattern, and otherwise fails with a ValueError carrying a non-empty message. -/
theorem c2_normalize_contract (s : String) :
    (∀ v, normalizePhone s = Except.ok v ↔
        (PhonePattern (ensurePlusL (stripWsL s.data)) ∧
          v = String.mk (ensurePlusL (stripWsL s.data)))) ∧
    (¬ PhonePattern (ensurePlusL (stripWsL s.data)) →
        ∃ msg, normalizePhone s = Except.error msg ∧ msg ≠ "") := by
  constructor
  · intro v
    rw [normalize_ok_iff]
    exact and_congr_left' (phoneFormat_iff _)
  · intro hnp
    cases hn : normalizePhone s with
    | error msg =>
      refine ⟨msg, rfl, ?_⟩
      rcases normalize_error_cases s msg hn with h1 | h1 <;> subst h1 <;> decide
    | ok v =>
      have h1 := (normalize_ok_iff s v).mp hn
      exact absurd ((phoneFormat_iff _).mp h1.1) hnp

/-- Witness for C2 at concrete inputs. -/
theorem c2_normalize_contract_witness :
    normalizePhone " + 1 2 3 4 5 " = Except.ok "+12345" ∧
    (∃ msg, normalizePhone "12ab" = Except.error msg ∧ msg ≠ "") := by
  constructor
  · exact ((c2_normalize_contract " + 1 2 3 4 5 ").1 "+12345").mpr
      ⟨⟨['1', '2', '3', '4', '5'], by decide, by decide, by decide, by decide⟩, by decide⟩
  · exact (c2_normalize_contract "12ab").2
      (fun hp => absurd ((phoneFormat_iff _).mpr hp) (by decide))

/-- C9: normalization is idempotent on its successful outputs: a normalized
phone string is a fixed point of normalizePhone. -/
theorem c9_normalize_idempotent (s v : String) (h : normalizePhone s = Except.ok v) :
    normalizePhone v = Except.ok v := by
  obtain ⟨hf, rfl⟩ := (normalize_ok_iff s v).mp h
  obtain ⟨ds, hds, hall, h5, h20⟩ := (phoneFormat_iff _).mp hf
  rw [normalize_ok_iff]
  dsimp only
  have hnows : ∀ a ∈ ensurePlusL (stripWsL s.data), isWs a = false := by
    intro a ha
    rw [hds] at ha
    rcases List.mem_cons.mp ha with h1 | h1
    · subst h1; decide
    · exact digit_not_ws a (hall a h1)
  have hstrip : stripWsL (ensurePlusL (stripWsL s.data)) = ensurePlusL (stripWsL s.data) := by
    unfold stripWsL
    rw [List.filter_eq_self]
    intro a ha
    simp [hnows a ha]
  have hplus : ensurePlusL (ensurePlusL (stripWsL s.data)) = ensurePlusL (stripWsL s.data) := by
    conv =>
      lhs
      rw [ensurePlusL]
    rw [hds]
    simp
  rw [hstrip, hplus]
  exact ⟨hf, rfl⟩

/-- Witness for C9 at a concrete input. -/
theorem c9_normalize_idempotent_witness : normalizePhone "+12345" = Except.ok "+12345" :=
  c9_normalize_idempotent "+1 23 45" "+12345" rfl

end App

namespace App

/-- C1: the translator maps the optional lookup record to exactly one response
string following the priority order: absent record, truthy error field (with
the two known substrings mapped to localized messages, first match winning,
and any other error text passed through), truthy username prefixed with an
at sign, truthy id, and the final fallback. -/
theorem c1_result_translator :
    resultString none = "Неизвестная ошибка" ∧
    (∀ i e, i.error = some e → e ≠ "" → containsSub e "not on Telegram" = true →
      resultString (some i) =
        "Нет такого пользователя в Telegram или заблокировано добавление в контакты") ∧
    (∀ i e, i.error = some e → e ≠ "" → containsSub e "not on Telegram" = false →
      containsSub e "multiple Telegram accounts" = true →
      resultString (some i) = "Номер привязан к нескольким аккаунтам (неожиданная ситуация)") ∧
    (∀ i e, i.error = some e → e ≠ "" → containsSub e "not on Telegram" = false →
      containsSub e "multiple Telegram accounts" = false →
      resultString (some i) = e) ∧
    (∀ i u, truthyStr i.error = false → i.username = some u → u ≠ "" →
      resultString (some i) = "@" ++ u) ∧
    (∀ i n, truthyStr i.error = false → truthyStr i.username = false → i.id = some n → n ≠ 0 →
      resultString (some i) = "У пользователя нет username") ∧
    (∀ i, truthyStr i.error = false → truthyStr i.username = false → truthyInt i.id = false →
      resultString (some i) = "Не удалось определить информацию по номеру") := by
  refine ⟨rfl, ?_, ?_, ?_, ?_, ?_, ?_⟩
  · intro i e he hne hc
    simp [resultString, truthyStr, he, hne, hc]
  · intro i e he hne hc1 hc2
    simp [resultString, truthyStr, he, hne, hc1, hc2]
  · intro i e he hne hc1 hc2
    simp [resultString, truthyStr, he, hne, hc1, hc2]
  · intro i u he hu hune
    have h1 : truthyStr (some u) = true := by simp [truthyStr, hune]
    simp [resultString, he, hu, h1]
  · intro i n he hu hid hne
    have h1 : truthyInt (some n) = true := by simp [truthyInt, hne]
    simp [resultString, he, hu, hid, h1]
  · intro i he hu hid
    simp [resultString, he, hu, hid]

/-- Witness for C1: one concrete record per branch of the priority order. -/
theorem c1_result_translator_witness :
    resultString none = "Неизвестная ошибка" ∧
    resultString (some ⟨some "phone is not on Telegram", none, none⟩) =
      "Нет такого пользователя в Telegram или заблокировано добавление в контакты" ∧
    resultString (some ⟨some "phone has multiple Telegram accounts", none, none⟩) =
      "Номер привязан к нескольким аккаунтам (неожиданная ситуация)" ∧
    resultString (some ⟨some "strange failure", none, none⟩) = "strange failure" ∧
    resultString (some ⟨none, some "alice", none⟩) = "@alice" ∧
    resultString (some ⟨none, none, some 123⟩) = "У пользователя нет username" ∧
    resultString (some ⟨none, none, none⟩) = "Не удалось определить информацию по номеру" := by
  refine ⟨c1_result_translator.1, ?_, ?_, ?_, ?_, ?_, ?_⟩
  · exact c1_result_translator.2.1 ⟨some "phone is not on Telegram", none, none⟩
      "phone is not on Telegram" rfl (by decide) (by decide)
  · exact c1_result_translator.2.2.1 ⟨some "phone has multiple Telegram accounts", none, none⟩
      "phone has multiple Telegram accounts" rfl (by decide) (by decide) (by decide)
  · exact c1_result_translator.2.2.2.1 ⟨some "strange failure", none, none⟩
      "strange failure" rfl (by decide) (by decide) (by decide)
  · exact c1_result_translator.2.2.2.2.1 ⟨none, some "alice", none⟩ "alice" rfl rfl (by decide)
  · exact c1_result_translator.2.2.2.2.2.1 ⟨none, none, some 123⟩ 123 rfl rfl rfl (by decide)
  · exact c1_result_translator.2.2.2.2.2.2 ⟨none, none, none⟩ rfl rfl rfl

end App

namespace App

lemma shutdown_none (st : ServerState) (h : st.client = none) : shutdownEvent st = st := by
  unfold shutdownEvent
  rw [h]

lemma checkPhone_congr (lr : Except PyError Unit) (lk : Lookup) (st : ServerState)
    (p q : String) (h : normalizePhone p = normalizePhone q) :
    checkPhone lr lk p st = checkPhone lr lk q st := by
  unfold checkPhone buildResultString
  rw [h]

/-- C4: when normalization fails, the pipeline raises before touching the
client or the lookup: the result is the ValueError for every login behaviour
and every lookup behaviour, and the connection state is returned unchanged. -/
theorem c4_invalid_no_side_effect (phone msg : String)
    (h : normalizePhone phone = Except.error msg) :
    ∀ (lr : Except PyError Unit) (lk : Lookup) (st : ServerState),
      buildResultString lr lk phone st = (Except.error (PyError.valueError msg), st) :=
  fun lr lk st => buildResult_norm_error lr lk phone st msg h

/-- Witness for C4 at a concrete invalid input. -/
theorem c4_invalid_no_side_effect_witness :
    buildResultString (Except.ok ()) (fun _ _ => Except.ok none) "12ab" ⟨none, 0, 0, []⟩ =
      (Except.error (PyError.valueError "Неверный формат номера телефона"), ⟨none, 0, 0, []⟩) :=
  c4_invalid_no_side_effect "12ab" "Неверный формат номера телефона" rfl
    (Except.ok ()) (fun _ _ => Except.ok none) ⟨none, 0, 0, []⟩

/-- C5: the provider creates and logs in exactly once: with a handle stored it
returns that handle and the unchanged state without login; with no handle it
performs one login, stores the fresh handle, and a second call then returns
the same handle with no further login. -/
theorem c5_client_singleton (lr : Except PyError Unit) (st : ServerState) :
    (∀ c, st.client = some c → getOrCreateClient lr st = (Except.ok c, st)) ∧
    (st.client = none → lr = Except.ok () →
      getOrCreateClient lr st =
        (Except.ok st.nextClientId,
          { st with
             client := some st.nextClientId,
             nextClientId := st.nextClientId + 1,
             loginCalls := st.loginCalls + 1 }) ∧
      getOrCreateClient lr
          { st with
             client := some st.nextClientId,
             nextClientId := st.nextClientId + 1,
             loginCalls := st.loginCalls + 1 } =
        (Except.ok st.nextClientId,
          { st with
             client := some st.nextClientId,
             nextClientId := st.nextClientId + 1,
             loginCalls := st.loginCalls + 1 })) := by
  constructor
  · intro c hc
    unfold getOrCreateClient
    rw [hc]
  · intro hc hl
    subst hl
    constructor
    · unfold getOrCreateClient
      rw [hc]
    · unfold getOrCreateClient
      rfl

/-- Witness for C5: first call logs in and stores handle 5, second call
returns the same handle and state. -/
theorem c5_client_singleton_witness :
    getOrCreateClient (Except.ok ()) ⟨none, 5, 0, []⟩ = (Except.ok 5, ⟨some 5, 6, 1, []⟩) ∧
    getOrCreateClient (Except.ok ()) ⟨some 5, 6, 1, []⟩ = (Except.ok 5, ⟨some 5, 6, 1, []⟩) := by
  have h := (c5_client_singleton (Except.ok ()) ⟨none, 5, 0, []⟩).2 rfl rfl
  exact ⟨h.1, h.2⟩

/-- C6: shutdown disconnects the stored handle, clears it, and repeating the
shutdown event any number of times never disconnects again. -/
theorem c6_shutdown_once (st : ServerState) (c : Nat) (h : st.client = some c) :
    (shutdownEvent st).client = none ∧
    (shutdownEvent st).disconnected = st.disconnected ++ [c] ∧
    ∀ n : Nat, (shutdownEvent^[n] (shutdownEvent st)).disconnected = st.disconnected ++ [c] := by
  have h1 : shutdownEvent st =
      { st with client := none, disconnected := st.disconnected ++ [c] } := by
    unfold shutdownEvent
    rw [h]
  have h2 : ∀ (m : Nat) (s : ServerState), s.client = none → shutdownEvent^[m] s = s := by
    intro m
    induction m with
    | zero => intro s _; rfl
    | succ k ih =>
      intro s hs
      rw [Function.iterate_succ_apply, shutdown_none s hs]
      exact ih s hs
  refine ⟨by rw [h1], by rw [h1], ?_⟩
  intro n
  rw [h2 n (shutdownEvent st) (by rw [h1]), h1]

/-- Witness for C6: a concrete state with handle 7, shutdown repeated. -/
theorem c6_shutdown_once_witness :
    (shutdownEvent ⟨some 7, 8, 1, []⟩).client = none ∧
    (shutdownEvent^[3] (shutdownEvent ⟨some 7, 8, 1, []⟩)).disconnected = [7] := by
  have h := c6_shutdown_once ⟨some 7, 8, 1, []⟩ 7 rfl
  exact ⟨h.1, h.2.2 3⟩

/-- C7: the POST handler delegates to the GET handler, so for the same login
and lookup behaviour both routes agree; in particular the spaced body phone
and the unspaced query phone give identical responses. -/
theorem c7_post_get_equivalent (lr : Except PyError Unit) (lk : Lookup) (st : ServerState) :
    (∀ body : PhoneRequest, checkPhonePost lr lk body st = checkPhone lr lk body.phone st) ∧
    checkPhone lr lk "+1 234 567" st = checkPhone lr lk "+1234567" st := by
  refine ⟨fun _ => rfl, ?_⟩
  exact checkPhone_congr lr lk st "+1 234 567" "+1234567" (by rfl)

/-- C8: the empty string fails on the dedicated first branch with its own
message, distinct from the generic format message, and the handler returns it
as a 200 result body. -/
theorem c8_empty_phone (lr : Except PyError Unit) (lk : Lookup) (st : ServerState) :
    normalizePhone "" = Except.error "Пустой номер телефона" ∧
    checkPhone lr lk "" st = (Response.ok "Пустой номер телефона", st) ∧
    "Пустой номер телефона" ≠ "Неверный формат номера телефона" := by
  refine ⟨rfl, ?_, by decide⟩
  exact checkPhone_norm_error lr lk "" st "Пустой номер телефона" rfl

/-- C10: any ValueError produced anywhere in the pipeline, not only by
normalization, is caught and surfaced as a 200 response with the message. -/
theorem c10_value_error_caught (lr : Except PyError Unit) (lk : Lookup) (phone : String)
    (st st1 : ServerState) (m : String)
    (h : buildResultString lr lk phone st = (Except.error (PyError.valueError m), st1)) :
    checkPhone lr lk phone st = (Response.ok m, st1) ∧
    (checkPhone lr lk phone st).1.status = 200 := by
  have h1 := checkPhone_value_error lr lk phone st st1 m h
  refine ⟨h1, ?_⟩
  rw [h1]
  rfl

/-- Witness for C10: the lookup itself raises the ValueError. -/
theorem c10_value_error_caught_witness :
    checkPhone (Except.ok ()) (fun _ _ => Except.error (PyError.valueError "нет доступа"))
        "+77777" ⟨some 3, 4, 2, []⟩ =
      (Response.ok "нет доступа", ⟨some 3, 4, 2, []⟩) :=
  (c10_value_error_caught (Except.ok ())
      (fun _ _ => Except.error (PyError.valueError "нет доступа"))
      "+77777" ⟨some 3, 4, 2, []⟩ ⟨some 3, 4, 2, []⟩ "нет доступа" rfl).1

/-- C3 counterexample: a non-normalization pipeline failure that is a
ValueError (here raised by the lookup on a well-formed number) is answered
with a 200 result body, not with a 500. -/
theorem c3_counterexample :
    normalizePhone "+12345" = Except.ok "+12345" ∧
    (checkPhone (Except.ok ()) (fun _ _ => Except.error (PyError.valueError "сбой поиска"))
        "+12345" ⟨some 0, 1, 1, []⟩).1 = Response.ok "сбой поиска" ∧
    ((checkPhone (Except.ok ()) (fun _ _ => Except.error (PyError.valueError "сбой поиска"))
        "+12345" ⟨some 0, 1, 1, []⟩).1).status ≠ 500 := by
  refine ⟨rfl, rfl, by decide⟩

/-- C3 amended: the handler answers 200 with the message for every ValueError
from the pipeline (normalization included), and 500 with the opaque detail
for every other exception. -/
theorem c3_handler_error_policy (lr : Except PyError Unit) (lk : Lookup) (phone : String)
    (st st1 : ServerState) (m : String) :
    (normalizePhone phone = Except.error m →
      checkPhone lr lk phone st = (Response.ok m, st)) ∧
    (buildResultString lr lk phone st = (Except.error (PyError.valueError m), st1) →
      checkPhone lr lk phone st = (Response.ok m, st1)) ∧
    (buildResultString lr lk phone st = (Except.error (PyError.exception m), st1) →
      checkPhone lr lk phone st = (Response.httpError 500 "Внутренняя ошибка сервиса", st1)) :=
  ⟨checkPhone_norm_error lr lk phone st m,
   checkPhone_value_error lr lk phone st st1 m,
   checkPhone_exception lr lk phone st st1 m⟩

/-- Witness for the amended C3: a format failure answered 200 and a generic
exception answered 500. -/
theorem c3_handler_error_policy_witness :
    checkPhone (Except.ok ()) (fun _ _ => Except.ok none) "12ab" ⟨none, 0, 0, []⟩ =
      (Response.ok "Неверный формат номера телефона", ⟨none, 0, 0, []⟩) ∧
    checkPhone (Except.ok ()) (fun _ _ => Except.error (PyError.exception "timeout"))
        "+54321" ⟨some 9, 10, 1, []⟩ =
      (Response.httpError 500 "Внутренняя ошибка сервиса", ⟨some 9, 10, 1, []⟩) := by
  constructor
  · exact (c3_handler_error_policy (Except.ok ()) (fun _ _ => Except.ok none) "12ab"
      ⟨none, 0, 0, []⟩ ⟨none, 0, 0, []⟩ "Неверный формат номера телефона").1 rfl
  · exact (c3_handler_error_policy (Except.ok ())
      (fun _ _ => Except.error (PyError.exception "timeout")) "+54321"
      ⟨some 9, 10, 1, []⟩ ⟨some 9, 10, 1, []⟩ "timeout").2.2 rfl

end App
